import Mathlib

/-!
Shallow embedding of the read/aggregation layer of `src/api.rs` (rating-update).

Conventions of the embedding:
* Rust `f64` values are modelled by `ℚ` (the code only adds, subtracts,
  multiplies, divides and compares them).  A division whose denominator is
  zero produces `NaN`/`±inf` in `f64`; we model any such non-finite result
  by `none` in `Option ℚ` (`fdiv` below), so an `Option ℚ` field holds
  `none` exactly where the Rust struct holds a non-finite marker value.
* Rust `f64::round` rounds half away from zero; `roundAway` below implements
  exactly that over any `FloorRing` field.
* Rust `i64`/`i32` database values are modelled by `ℤ`.
* Database queries are modelled by passing the query result (a list of rows,
  or a lookup function for point queries) as an explicit argument.
* A Rust `panic!` is modelled by `Except.error`; code that cannot panic
  returns plain values.
* `Rating::expected` and `Rating::rating_change` live in `glicko.rs`, which
  is not part of the sources under verification; functions of the read layer
  that call them take them as explicit function parameters, except where a
  claim is about `expected` itself, in which case it is modelled from the
  spec (see `expectedR`).
-/

/-- Round half away from zero, the semantics of Rust `f64::round`. -/
def roundAway {α : Type} [LinearOrderedField α] [FloorRing α] (x : α) : ℤ :=
  if 0 ≤ x then ⌊x + 1 / 2⌋ else -⌊-x + 1 / 2⌋

/-- Truncation toward zero, the semantics of a Rust `f64 as i32` cast
(saturation at the `i32` bounds is not modelled; no claim involves values
anywhere near them). -/
def truncQ (q : ℚ) : ℤ :=
  if 0 ≤ q then ⌊q⌋ else ⌈q⌉

/-- Division as performed on `f64`, with any zero denominator producing the
non-finite marker `none` (`NaN` or `±inf` in the original) instead of a
divide-by-zero failure. -/
def fdiv (a b : ℚ) : Option ℚ :=
  if b = 0 then none else some (a / b)

/-- Rating pair as stored on the Glicko-2 internal scale
(struct `Rating` of `glicko.rs`, used throughout `api.rs`). -/
structure Rating where
  value : ℚ
  deviation : ℚ
deriving DecidableEq, Repr

/-- Constant `MATCHUP_MIN_GAMES` of `api.rs` (line 560). -/
def MATCHUP_MIN_GAMES : ℚ := 250.0

/-- Function `get_evaluation` of `api.rs` (lines 1143-1164).  The
`game_count` argument is `WithTop ℚ` because `matchups_versus` passes
`f64::INFINITY` for it (`⊤` here); every finite `f64` compares strictly
below `INFINITY`, exactly as every `(q : ℚ)` compares below `⊤`. -/
def get_evaluation (wins losses : ℚ) (game_count : WithTop ℚ) : String :=
  if game_count < ((MATCHUP_MIN_GAMES : ℚ) : WithTop ℚ) then "none"
  else
    let r := wins / (wins + losses)
    if r > 0.6 then "verygood"
    else if r > 0.56 then "good"
    else if r > 0.52 then "slightlygood"
    else if r > 0.48 then "ok"
    else if r > 0.44 then "slightlybad"
    else if r > 0.40 then "bad"
    else "verybad"

/-- Struct `Matchup` of `api.rs` (lines 1134-1141).  The two win-rate
fields are `Option ℚ` because the missing-row branch stores `f64::NAN`
(modelled as `none`) in them. -/
structure Matchup where
  win_rate_real : Option ℚ
  win_rate_adjusted : Option ℚ
  game_count : ℤ
  suspicious : Bool
  evaluation : String
deriving DecidableEq, Repr

/-- Percentage win rate as computed throughout `api.rs`:
`(wins / (wins + losses) * 100.0).round()`.  A zero denominator yields the
`NaN` marker `none`, which `round` propagates. -/
def win_rate_pct (wins losses : ℚ) : Option ℚ :=
  (fdiv wins (wins + losses)).map (fun r => ((roundAway (r * 100) : ℤ) : ℚ))

/-- Body of the per-pair closure of `matchups_global_inner`
(`api.rs` lines 1172-1217).  `store c o` is the result of the point query
against `global_matchups` for `(char_id, opp_char_id) = (c, o)`:
`none` models a pair with no stored row, `some (wins_real, wins_adjusted,
losses_real, losses_adjusted)` a stored one. -/
def matchups_global_entry (store : ℕ → ℕ → Option (ℚ × ℚ × ℚ × ℚ)) (c o : ℕ) : Matchup :=
  match store c o with
  | some (wins_real, wins_adjusted, losses_real, losses_adjusted) =>
    { win_rate_real := win_rate_pct wins_real losses_real
      win_rate_adjusted := win_rate_pct wins_adjusted losses_adjusted
      game_count := truncQ (wins_real + losses_real)
      suspicious := decide (wins_real + losses_real < MATCHUP_MIN_GAMES)
      evaluation := get_evaluation wins_adjusted losses_adjusted
        ((wins_real + losses_real : ℚ) : WithTop ℚ) }
  | none =>
    { win_rate_real := none
      win_rate_adjusted := none
      game_count := 0
      suspicious := true
      evaluation := "none" }

/-- Struct `VersusMatchup` of `api.rs` (lines 1290-1297); `win_rate` is
`Option ℚ` because the missing-row branch stores `f64::NAN` in it. -/
structure VersusMatchup where
  win_rate : Option ℚ
  game_count : ℤ
  pair_count : ℤ
  suspicious : Bool
  evaluation : String
deriving DecidableEq, Repr

/-- Body of the per-pair closure of `matchups_versus`
(`api.rs` lines 1305-1344).  `store c o` is the point query against
`versus_matchups` for `(char_a, char_b) = (c, o)`, returning
`(win_rate, game_count, pair_count)` when a row is stored. -/
def matchups_versus_entry (store : ℕ → ℕ → Option (ℚ × ℤ × ℤ)) (c o : ℕ) : VersusMatchup :=
  if c = o then
    { win_rate := some 50.0
      game_count := 0
      pair_count := 0
      suspicious := false
      evaluation := "ok" }
  else
    match store c o with
    | some (win_rate, game_count, pair_count) =>
      { win_rate := some ((roundAway (win_rate * 100) : ℤ) : ℚ)
        game_count := game_count
        pair_count := pair_count
        suspicious := decide (pair_count < 50) || decide (game_count < 250)
        evaluation := get_evaluation win_rate (1 - win_rate) ⊤ }
    | none =>
      { win_rate := none
        game_count := 0
        pair_count := 0
        suspicious := true
        evaluation := "none" }

/-- Full table built by `matchups_versus` (`api.rs` lines 1299-1351): one
row of entries per character, iterating `char_id` and `opp_char_id` over
the index range of `CHAR_NAMES`. -/
def matchups_versus_table (char_count : ℕ) (store : ℕ → ℕ → Option (ℚ × ℤ × ℤ)) :
    List (List VersusMatchup) :=
  (List.range char_count).map (fun c =>
    (List.range char_count).map (fun o => matchups_versus_entry store c o))

/-- Hexadecimal digit value of a character, as accepted by Rust
`char::to_digit(16)`. -/
def hexDigitVal (c : Char) : Option ℕ :=
  if '0' ≤ c ∧ c ≤ '9' then some (c.toNat - 48)
  else if 'a' ≤ c ∧ c ≤ 'f' then some (c.toNat - 87)
  else if 'A' ≤ c ∧ c ≤ 'F' then some (c.toNat - 55)
  else none

/-- Rust `i64::from_str_radix(s, 16)`: an optional sign, then at least one
hexadecimal digit, with the resulting value required to fit in `i64`.
Rust detects overflow at the first checked multiply-add; since the
accumulated magnitude is non-decreasing, that is equivalent to the final
value lying outside the `i64` range, which is what is checked here. -/
def from_str_radix16 (s : String) : Option ℤ :=
  let (neg, digits) :=
    match s.data with
    | '+' :: rest => (false, rest)
    | '-' :: rest => (true, rest)
    | cs => (false, cs)
  if digits.isEmpty then none
  else
    (digits.foldlM (fun (acc : ℕ) c => (hexDigitVal c).map (fun d => acc * 16 + d)) 0).bind
      (fun mag =>
        let v : ℤ := if neg then -(mag : ℤ) else (mag : ℤ)
        if -(2 ^ 63) ≤ v ∧ v ≤ 2 ^ 63 - 1 then some v else none)

/-- Panic message used to model the `.unwrap()` on the player-id parse in
`player_rating`, `player_rating_accuracy` and `rating_experience_player`
(`api.rs` lines 127, 161, 1703). -/
def invalidIdMsg : String := "called Result::unwrap on an Err value"

/-- Deviation filter of the side-A half of the accuracy query
(`api.rs` lines 182-183): both snapshot deviations below `75.0`. -/
def accuracy_filter_side_a (deviation_a deviation_b : ℚ) : Bool :=
  decide (deviation_a < 75.0) && decide (deviation_b < 75.0)

/-- Deviation filter of the side-B half of the accuracy query
(`api.rs` lines 197-198): both snapshot deviations below `0.5`. -/
def accuracy_filter_side_b (deviation_a deviation_b : ℚ) : Bool :=
  decide (deviation_a < 0.5) && decide (deviation_b < 0.5)

/-- Row of the union query driving the accuracy loop of
`player_rating_accuracy` (`api.rs` lines 209-223): the player's own
snapshot rating, the opponent's, and the (possibly shifted) winner code. -/
structure AccuracyRow where
  own_value : ℚ
  own_deviation : ℚ
  opp_value : ℚ
  opp_deviation : ℚ
  winner : ℤ
deriving DecidableEq, Repr

/-- One iteration of the accuracy loop (`api.rs` lines 209-223):
compute the expected outcome, clamp it into a 0-to-10 bucket, and count a
win for winner codes 1 and 4, a loss for 2 and 3, and panic (`error`) on
any other code.  `expectedF` stands for `Rating::expected` of `glicko.rs`,
which is outside the verified sources. -/
def accuracy_step (expectedF : Rating → Rating → ℚ) (buckets : List (ℚ × ℚ))
    (row : AccuracyRow) : Except String (List (ℚ × ℚ)) :=
  let own_rating : Rating := ⟨row.own_value, row.own_deviation⟩
  let opp_rating : Rating := ⟨row.opp_value, row.opp_deviation⟩
  let expected := expectedF own_rating opp_rating
  let bucket := (roundAway (max (min expected 1) 0 * 10)).toNat
  if row.winner = 1 ∨ row.winner = 4 then
    .ok (buckets.set bucket (((buckets.getD bucket (0, 0)).1 + 1, (buckets.getD bucket (0, 0)).2)))
  else if row.winner = 2 ∨ row.winner = 3 then
    .ok (buckets.set bucket (((buckets.getD bucket (0, 0)).1, (buckets.getD bucket (0, 0)).2 + 1)))
  else
    .error "Bad winner"

/-- Accuracy loop of `player_rating_accuracy` over all returned rows,
starting from the eleven empty buckets (`api.rs` lines 167, 209-223). -/
def processAccuracy (expectedF : Rating → Rating → ℚ) (rows : List AccuracyRow) :
    Except String (List (ℚ × ℚ)) :=
  rows.foldlM (accuracy_step expectedF) (List.replicate 11 ((0 : ℚ), (0 : ℚ)))

/-- Final map of `player_rating_accuracy` (`api.rs` lines 225-230):
per-bucket `wins / (wins + losses)`, a zero-game bucket giving the `NaN`
marker `none`. -/
def accuracy_ratios (buckets : List (ℚ × ℚ)) : List (Option ℚ) :=
  buckets.map (fun wl => fdiv wl.1 (wl.1 + wl.2))

/-- Endpoint `player_rating_accuracy` (`api.rs` lines 155-236): parse the
player id (panicking on invalid hex), look the character up by short name,
then run the accuracy loop over the query result `db id charIdx`. -/
def player_rating_accuracy_endpoint (charNames : List (String × String))
    (expectedF : Rating → Rating → ℚ) (db : ℤ → ℕ → List AccuracyRow)
    (player character_short : String) : Except String (Option (List (Option ℚ))) :=
  match from_str_radix16 player with
  | none => .error invalidIdMsg
  | some id =>
    match charNames.findIdx? (fun c => c.1 = character_short) with
    | some char_id => (processAccuracy expectedF (db id char_id)).map (fun b => some (accuracy_ratios b))
    | none => .ok none

/-- Endpoint `player_rating` (`api.rs` lines 121-153): parse the player id
(panicking on invalid hex), look the character up, then point-query
`player_ratings` (modelled by `store`). -/
def player_rating_endpoint (charNames : List (String × String))
    (store : ℤ → ℕ → Option (ℚ × ℚ)) (player character_short : String) :
    Except String (Option Rating) :=
  match from_str_radix16 player with
  | none => .error invalidIdMsg
  | some id =>
    match charNames.findIdx? (fun c => c.1 = character_short) with
    | some char_id => .ok ((store id char_id).map (fun vd => ⟨vd.1, vd.2⟩))
    | none => .ok none

/-- Row of `player_ratings` as read by
`get_player_highest_rated_character`. -/
structure PlayerRatingRow where
  char_id : ℤ
  value : ℚ
  deviation : ℚ
deriving DecidableEq, Repr

/-- Function `get_player_highest_rated_character` (`api.rs` lines
593-608): `ORDER BY value - 3.0 * deviation DESC LIMIT 1` over the
player's rating rows, i.e. a row maximizing `value - 3 * deviation`, or
`none` when the player has no rating row. -/
def get_player_highest_rated_character (rows : List PlayerRatingRow) : Option ℤ :=
  (rows.argmax (fun r => r.value - 3.0 * r.deviation)).map (fun r => r.char_id)

/-- Win rate of `get_player_character_data` (`api.rs` line 943):
`(100.0 * wins / (wins + losses)).round()`, with a zero game count giving
the `NaN` marker `none`. -/
def player_win_rate (wins losses : ℤ) : Option ℚ :=
  (fdiv (100 * (wins : ℚ)) ((wins : ℚ) + (losses : ℚ))).map
    (fun r => ((roundAway r : ℤ) : ℚ))

/-- Row of the union query of `get_player_char_history`
(`api.rs` lines 621-659). -/
structure HistoryRow where
  timestamp : ℤ
  own_value : ℚ
  own_deviation : ℚ
  game_floor : ℤ
  opponent_name : String
  opponent_id : ℤ
  opponent_char : ℤ
  opponent_value : ℚ
  opponent_deviation : ℚ
  winner : ℤ
  vip_status : Option String
  cheater_status : Option String
deriving DecidableEq, Repr

/-- Struct `RawPlayerSet` of `api.rs` (lines 974-990). -/
structure RawPlayerSet where
  timestamp : ℤ
  own_value : ℚ
  own_deviation : ℚ
  floor : ℤ
  opponent_name : String
  opponent_vip : Bool
  opponent_cheater : Bool
  opponent_id : ℤ
  opponent_char : ℤ
  opponent_value : ℚ
  opponent_deviation : ℚ
  rating_change_sequence : List ℚ
  result_wins : ℤ
  result_losses : ℤ
deriving DecidableEq, Repr

/-- Function `stringify_floor` of `api.rs` (lines 1065-1070). -/
def stringify_floor (floor : ℤ) : String :=
  if 1 ≤ floor ∧ floor ≤ 10 then "F" ++ toString floor else "C"

/-- Function `add_to_grouped_sets` of `api.rs` (lines 1072-1126): extend
the last set when it is against the same opponent player and character,
otherwise push a fresh one-game set.  `ratingChange` stands for
`Rating::rating_change` of `glicko.rs`, outside the verified sources. -/
def add_to_grouped_sets (ratingChange : Rating → Rating → ℚ → ℚ)
    (sets : List RawPlayerSet) (timestamp floor : ℤ) (own_value own_deviation : ℚ)
    (opponent_name : String) (opponent_id opponent_char : ℤ)
    (opponent_value opponent_deviation : ℚ) (winner opponent_vip opponent_cheater : Bool) :
    List RawPlayerSet :=
  let own_rating : Rating := ⟨own_value, own_deviation⟩
  let opp_rating : Rating := ⟨opponent_value, opponent_deviation⟩
  let rating_change := ratingChange own_rating opp_rating (if winner then 1.0 else 0.0)
  match sets.getLast? with
  | some set =>
    if set.opponent_id = opponent_id ∧ set.opponent_char = opponent_char then
      sets.dropLast ++ [{ set with
        timestamp := timestamp
        own_value := own_value
        own_deviation := own_deviation
        opponent_value := opponent_value
        opponent_deviation := opponent_deviation
        rating_change_sequence := set.rating_change_sequence ++ [rating_change]
        result_wins := if winner then set.result_wins + 1 else set.result_wins
        result_losses := if winner then set.result_losses else set.result_losses + 1 }]
    else
      sets ++ [{ timestamp := timestamp
                 own_value := own_value
                 own_deviation := own_deviation
                 floor := floor
                 opponent_name := opponent_name
                 opponent_vip := opponent_vip
                 opponent_cheater := opponent_cheater
                 opponent_id := opponent_id
                 opponent_char := opponent_char
                 opponent_value := opponent_value
                 opponent_deviation := opponent_deviation
                 rating_change_sequence := [rating_change]
                 result_wins := if winner then 1 else 0
                 result_losses := if winner then 0 else 1 }]
  | none =>
    [{ timestamp := timestamp
       own_value := own_value
       own_deviation := own_deviation
       floor := floor
       opponent_name := opponent_name
       opponent_vip := opponent_vip
       opponent_cheater := opponent_cheater
       opponent_id := opponent_id
       opponent_char := opponent_char
       opponent_value := opponent_value
       opponent_deviation := opponent_deviation
       rating_change_sequence := [rating_change]
       result_wins := if winner then 1 else 0
       result_losses := if winner then 0 else 1 }]

/-- Body of one iteration of the row loop of `get_player_char_history`
(`api.rs` lines 671-706): the row is fed to `add_to_grouped_sets` only
when `group_games` holds, with an unrecognized winner code panicking
(`error`) at the winner match. -/
def history_step (ratingChange : Rating → Rating → ℚ → ℚ) (group_games : Bool)
    (sets : List RawPlayerSet) (row : HistoryRow) : Except String (List RawPlayerSet) :=
  if group_games then
    if row.winner = 1 ∨ row.winner = 4 then
      .ok (add_to_grouped_sets ratingChange sets row.timestamp row.game_floor
        row.own_value row.own_deviation row.opponent_name row.opponent_id
        row.opponent_char row.opponent_value row.opponent_deviation
        true row.vip_status.isSome row.cheater_status.isSome)
    else if row.winner = 2 ∨ row.winner = 3 then
      .ok (add_to_grouped_sets ratingChange sets row.timestamp row.game_floor
        row.own_value row.own_deviation row.opponent_name row.opponent_id
        row.opponent_char row.opponent_value row.opponent_deviation
        false row.vip_status.isSome row.cheater_status.isSome)
    else .error "Bad winner"
  else .ok sets

/-- Row loop of `get_player_char_history` over all returned rows, starting
from the empty set list (`api.rs` lines 670-706). -/
def history_loop (ratingChange : Rating → Rating → ℚ → ℚ) (group_games : Bool)
    (rows : List HistoryRow) : Except String (List RawPlayerSet) :=
  rows.foldlM (history_step ratingChange group_games) []

/-- Struct `PlayerSet` of `api.rs` (lines 562-583).  Fields that the
source renders to display strings with numeric formatting keep their
underlying numeric value here: `timestamp` the epoch seconds behind the
date string, `opponent_id` the id behind the upper-hex string,
`opponent_character` the index into `CHAR_NAMES` (a table of
`website.rs`, outside the verified sources), `expected_outcome` the
percentage with its uncertainty marks, `rating_change` the summed delta
and `rating_change_sequence` the per-game deltas. -/
structure PlayerSet where
  timestamp : ℤ
  own_rating_value : ℚ
  own_rating_deviation : ℚ
  floor : String
  opponent_name : String
  opponent_vip : Option String
  opponent_cheater : Option String
  opponent_id : ℤ
  opponent_character : ℤ
  opponent_rating_value : ℚ
  opponent_rating_deviation : ℚ
  expected_outcome : ℚ × String
  rating_change : ℚ
  rating_change_class : String
  rating_change_sequence : List ℚ
  result_wins : ℤ
  result_losses : ℤ
  result_percent : Option ℚ
deriving DecidableEq, Repr

/-- Method `RawPlayerSet::to_formated_set` of `api.rs` (lines 992-1062).
The source compares `rsm_deviation = sqrt(0.5 * d_own^2 + 0.5 * d_opp^2)`
against 50, 100 and 150; since all quantities are non-negative and
squaring is monotone there, the comparisons are carried out here on the
squares (2500, 10000, 22500), avoiding a square root on `ℚ`. -/
def RawPlayerSet.to_formated_set (expectedF : Rating → Rating → ℚ) (s : RawPlayerSet) :
    PlayerSet :=
  let own_rating : Rating := ⟨s.own_value, s.own_deviation⟩
  let opp_rating : Rating := ⟨s.opponent_value, s.opponent_deviation⟩
  let rsm_deviation_sq := 0.5 * s.own_deviation ^ 2 + 0.5 * s.opponent_deviation ^ 2
  let marks :=
    if rsm_deviation_sq < 2500 then ""
    else if rsm_deviation_sq < 10000 then " ?"
    else if rsm_deviation_sq < 22500 then " ??"
    else " ????"
  let rating_change_sum := s.rating_change_sequence.sum
  let average_rating_change :=
    rating_change_sum / ((s.result_wins + s.result_losses : ℤ) : ℚ)
  { timestamp := s.timestamp
    own_rating_value := ((roundAway s.own_value : ℤ) : ℚ)
    own_rating_deviation := ((roundAway (2.0 * s.own_deviation) : ℤ) : ℚ)
    floor := stringify_floor s.floor
    opponent_name := s.opponent_name
    opponent_id := s.opponent_id
    opponent_character := s.opponent_char
    opponent_rating_value := ((roundAway s.opponent_value : ℤ) : ℚ)
    opponent_rating_deviation := ((roundAway (2.0 * s.opponent_deviation) : ℤ) : ℚ)
    expected_outcome := (expectedF own_rating opp_rating * 100, marks)
    rating_change := rating_change_sum
    rating_change_class :=
      if average_rating_change ≥ 2.0 then "has-text-success"
      else if average_rating_change > -2.0 then "has-text-warning"
      else "has-text-danger"
    rating_change_sequence := s.rating_change_sequence.reverse
    result_wins := s.result_wins
    result_losses := s.result_losses
    result_percent := player_win_rate s.result_wins s.result_losses
    opponent_cheater := if s.opponent_cheater then some "Cheater" else none
    opponent_vip := if s.opponent_vip then some "VIP" else none }

/-- Struct `PlayerCharacterHistory` of `api.rs` (lines 556-558). -/
structure PlayerCharacterHistory where
  history : List PlayerSet
deriving DecidableEq, Repr

/-- Function `get_player_char_history` (`api.rs` lines 610-717): run the
row loop over the query result and format every accumulated set; the
function unconditionally wraps the result in `Some`. -/
def get_player_char_history (ratingChange : Rating → Rating → ℚ → ℚ)
    (expectedF : Rating → Rating → ℚ) (rows : List HistoryRow) (group_games : Bool) :
    Except String (Option PlayerCharacterHistory) :=
  (history_loop ratingChange group_games rows).map
    (fun sets => some ⟨sets.map (RawPlayerSet.to_formated_set expectedF)⟩)

/-- Row of `game_ratings` as read by `rating_experience_player`
(`api.rs` lines 1707-1719); the SQL deviation filter is applied by the
store, so rows here are the query result. -/
structure GameRatingRow where
  id_a : ℤ
  id_b : ℤ
  value_a : ℚ
  value_b : ℚ
deriving DecidableEq, Repr

/-- Struct `RatingDiffStats` of `api.rs` (lines 1684-1696).  The ratio
fields are `Option ℚ`: with zero processed games every one of them is the
`f64` `NaN` marker (modelled `none`). -/
structure RatingDiffStats where
  below_400 : Option ℚ
  below_300 : Option ℚ
  below_200 : Option ℚ
  below_100 : Option ℚ
  over_100 : Option ℚ
  over_200 : Option ℚ
  over_300 : Option ℚ
  over_400 : Option ℚ
  difference_amounts : List ℤ
  difference_counts : List (Option ℚ)
deriving DecidableEq, Repr

/-- Mutable accumulation state of the `rating_experience_player` loop
(`api.rs` lines 1721-1731): the bucket count map and the nine running
totals. -/
structure DiffState where
  counts : ℤ → ℤ
  total : ℚ
  over_100 : ℚ
  over_200 : ℚ
  over_300 : ℚ
  over_400 : ℚ
  below_100 : ℚ
  below_200 : ℚ
  below_300 : ℚ
  below_400 : ℚ

/-- Initial `DiffState`: empty count map, all totals zero. -/
def DiffState.init : DiffState :=
  ⟨fun _ => 0, 0, 0, 0, 0, 0, 0, 0, 0, 0⟩

/-- Accumulation of one rating delta (`api.rs` lines 1740-1770): the eight
threshold counters, the running total, and the 25-point-wide bucket
`((delta + 12.5) / 25).floor()`. -/
def diff_accum (st : DiffState) (delta : ℚ) : DiffState :=
  let bucket := ⌊(delta + 12.5) / 25.0⌋
  { counts := fun b => if b = bucket then st.counts b + 1 else st.counts b
    total := st.total + 1
    over_100 := if delta > 100.0 then st.over_100 + 1 else st.over_100
    over_200 := if delta > 200.0 then st.over_200 + 1 else st.over_200
    over_300 := if delta > 300.0 then st.over_300 + 1 else st.over_300
    over_400 := if delta > 400.0 then st.over_400 + 1 else st.over_400
    below_100 := if delta < -100.0 then st.below_100 + 1 else st.below_100
    below_200 := if delta < -200.0 then st.below_200 + 1 else st.below_200
    below_300 := if delta < -300.0 then st.below_300 + 1 else st.below_300
    below_400 := if delta < -400.0 then st.below_400 + 1 else st.below_400 }

/-- One row of the `rating_experience_player` loop (`api.rs` lines
1733-1806): accumulate `value_b - value_a` when the player is side A and
`value_a - value_b` when side B (both, if both sides are the player). -/
def experience_step (id : ℤ) (st : DiffState) (row : GameRatingRow) : DiffState :=
  let st := if row.id_a = id then diff_accum st (row.value_b - row.value_a) else st
  if row.id_b = id then diff_accum st (row.value_a - row.value_b) else st

/-- Bucket index range `-30..=30` of `rating_experience_player`
(`api.rs` lines 1808-1809). -/
def diffBucketRange : List ℤ :=
  (List.range 61).map (fun i => (i : ℤ) - 30)

/-- Result assembly of `rating_experience_player` (`api.rs` lines
1813-1830): each ratio is `counter / total` on `f64` (the `NaN` of a zero
total modelled by `none`), the amounts are `-750, -725, ..., 750`, and
each count is `count / total * 100`. -/
def rating_experience_player_stats (id : ℤ) (rows : List GameRatingRow) : RatingDiffStats :=
  let st := rows.foldl (experience_step id) DiffState.init
  { over_100 := fdiv st.over_100 st.total
    over_200 := fdiv st.over_200 st.total
    over_300 := fdiv st.over_300 st.total
    over_400 := fdiv st.over_400 st.total
    below_100 := fdiv st.below_100 st.total
    below_200 := fdiv st.below_200 st.total
    below_300 := fdiv st.below_300 st.total
    below_400 := fdiv st.below_400 st.total
    difference_amounts := diffBucketRange.map (fun r => r * 25)
    difference_counts := diffBucketRange.map
      (fun r => (fdiv ((st.counts r : ℤ) : ℚ) st.total).map (fun x => x * 100)) }

/-- Endpoint `rating_experience_player` (`api.rs` lines 1698-1834): parse
the player id from hex, panicking (`error`) on failure, then fold the
query result `db id`. -/
def rating_experience_player_endpoint (db : ℤ → List GameRatingRow) (player_id : String) :
    Except String RatingDiffStats :=
  match from_str_radix16 player_id with
  | none => .error invalidIdMsg
  | some id => .ok (rating_experience_player_stats id (db id))

/-- Internal-scale conversion of `rating_experience` (`api.rs` lines
1844-1845): `(r - 1500.0) / 173.718`. -/
def internal_of_display (r : ℚ) : ℚ :=
  (r - 1500.0) / 173.718

/-- Display-scale conversion of `rating_experience` (`api.rs` lines
1883-1884): `v * 173.718 + 1500.0`. -/
def display_of_internal (v : ℚ) : ℚ :=
  v * 173.718 + 1500.0

/-- Rating pair over `ℝ`, for the spec-modelled expectation function. -/
structure RatingR where
  value : ℝ
  deviation : ℝ

/-- Modelled from the spec: `Rating::expected` lives in `glicko.rs`,
which is not among the sources under verification.  Per the spec it is "a
logistic function of the rating difference scaled by the combined
deviation, per the standard Glicko-2 expectation formula":
`E = 1 / (1 + exp(-g(phi) * (mu_a - mu_b)))` with
`g(phi) = 1 / sqrt(1 + 3 phi^2 / pi^2)` and `phi` the combined deviation
`sqrt(phi_a^2 + phi_b^2)`. -/
noncomputable def glickoG (phi : ℝ) : ℝ :=
  1 / Real.sqrt (1 + 3 * phi ^ 2 / Real.pi ^ 2)

/-- Modelled from the spec: the Glicko-2 expected outcome (see
`glickoG`). -/
noncomputable def expectedR (a b : RatingR) : ℝ :=
  1 / (1 + Real.exp (-(glickoG (Real.sqrt (a.deviation ^ 2 + b.deviation ^ 2))) *
    (a.value - b.value)))

/-- Bucket index of the `outcomes` aggregation (`api.rs` line 2071):
`(p * 100.0).round() as usize` with `p = Rating::expected(a, b)`. -/
noncomputable def outcomes_bucket (a b : RatingR) : ℤ :=
  roundAway (expectedR a b * 100)

/-- Bucket index of the accuracy aggregation (`api.rs` line 216):
`(expected.min(1.0).max(0.0) * 10.0).round() as usize`. -/
noncomputable def accuracy_bucket (a b : RatingR) : ℤ :=
  roundAway (max (min (expectedR a b) 1) 0 * 10)

/-- Vector of 101 win/total cells indexed by `outcomes_bucket`
(`api.rs` line 2053). -/
def outcomes_vec : List (ℚ × ℚ) :=
  List.replicate 101 ((0 : ℚ), (0 : ℚ))

/-- Concrete `versus_matchups` store used to exercise `matchups_versus_entry`:
the pair `(0, 1)` has win rate `1/2`, 10 total games and 100 distinct
player pairs. -/
def vsStore : ℕ → ℕ → Option (ℚ × ℤ × ℤ) :=
  fun a b => if a = 0 ∧ b = 1 then some (1/2, 10, 100) else none

/-- Concrete rating rows: character 0 with a well-established rating
(value 100, deviation 0) and character 1 with a higher raw value but a
large deviation (value 110, deviation 30), so the conservative estimate
prefers character 0 while the raw value prefers character 1. -/
def demoRatingRows : List PlayerRatingRow :=
  [⟨0, 100, 0⟩, ⟨1, 110, 30⟩]

/-- Constant stand-in for `Rating::expected` in concrete runs. -/
def constHalf : Rating → Rating → ℚ := fun _ _ => 1/2

/-- Constant stand-in for `Rating::rating_change` in concrete runs. -/
def zeroChange : Rating → Rating → ℚ → ℚ := fun _ _ _ => 0

/-- Accuracy row carrying the unrecognized winner code 0. -/
def badAccuracyRow : AccuracyRow := ⟨0, 0, 0, 0, 0⟩

/-- Accuracy row carrying the valid winner code 1. -/
def goodAccuracyRow : AccuracyRow := ⟨0, 0, 0, 0, 1⟩

/-- History row carrying the unrecognized winner code 5. -/
def badHistoryRow : HistoryRow := ⟨0, 0, 0, 1, "opp", 7, 2, 0, 0, 5, none, none⟩

/-- History row carrying the valid winner code 1. -/
def goodHistoryRow : HistoryRow := ⟨0, 0, 0, 1, "opp", 7, 2, 0, 0, 1, none, none⟩

/-- C10: for every character, the versus-matchup entry of the character
against itself is the fixed constant (win rate 50.0, game count 0, pair
count 0, suspicious false, evaluation "ok"), independent of the store
(which is never read on the diagonal), and in particular not flagged
suspicious even though both its counts are below the off-diagonal
significance thresholds 50 and 250. -/
theorem c10_versus_diagonal (store : ℕ → ℕ → Option (ℚ × ℤ × ℤ)) (c : ℕ) :
    matchups_versus_entry store c c =
      { win_rate := some 50.0
        game_count := 0
        pair_count := 0
        suspicious := false
        evaluation := "ok" } ∧
    (matchups_versus_entry store c c).suspicious = false ∧
    ((0 : ℤ) < 50 ∧ (0 : ℤ) < 250) := by
  refine ⟨?_, ?_, by omega⟩ <;> simp [matchups_versus_entry]

/-- C1, counterexample: at the stored pair `(0, 1)` of `vsStore`
(100 distinct pairs, 10 total games) the code flags `suspicious = true`
although the pair is not below both thresholds (its pair count 100 is
not below 50), refuting the claim that the flag is set only when both
counts are below their thresholds. -/
theorem c1_counterexample :
    (matchups_versus_entry vsStore 0 1).suspicious = true ∧
    ¬(((100 : ℤ) < 50) ∧ ((10 : ℤ) < 250)) := by
  constructor
  · rfl
  · omega

/-- C1, amended: for every off-diagonal pair with a stored row, the
`suspicious` flag is true exactly when the pair count is below 50 OR the
game count is below 250; a pair that has reached both minimums is flagged
false, and crossing the thresholds changes no other field (the whole
entry is the same record with only `suspicious` depending on the
thresholds). -/
theorem c1_versus_suspicious (store : ℕ → ℕ → Option (ℚ × ℤ × ℤ)) (c o : ℕ)
    (win_rate : ℚ) (game_count pair_count : ℤ) (hne : c ≠ o)
    (hrow : store c o = some (win_rate, game_count, pair_count)) :
    matchups_versus_entry store c o =
      { win_rate := some ((roundAway (win_rate * 100) : ℤ) : ℚ)
        game_count := game_count
        pair_count := pair_count
        suspicious := decide (pair_count < 50) || decide (game_count < 250)
        evaluation := get_evaluation win_rate (1 - win_rate) ⊤ } ∧
    ((matchups_versus_entry store c o).suspicious = true ↔
      (pair_count < 50 ∨ game_count < 250)) ∧
    (50 ≤ pair_count → 250 ≤ game_count →
      (matchups_versus_entry store c o).suspicious = false) := by
  have h1 : matchups_versus_entry store c o =
      { win_rate := some ((roundAway (win_rate * 100) : ℤ) : ℚ)
        game_count := game_count
        pair_count := pair_count
        suspicious := decide (pair_count < 50) || decide (game_count < 250)
        evaluation := get_evaluation win_rate (1 - win_rate) ⊤ } := by
    simp only [matchups_versus_entry, if_neg hne, hrow]
  refine ⟨h1, ?_, fun h50 h250 => ?_⟩
  · rw [h1]
    simp [Bool.or_eq_true, decide_eq_true_iff]
  · rw [h1]
    simp only [Bool.or_eq_false_iff, decide_eq_false_iff_not, not_lt]
    exact ⟨h50, h250⟩

/-- C1, witness: the amended theorem applied at the stored pair `(0, 1)`
of `vsStore`. -/
theorem c1_witness :
    matchups_versus_entry vsStore 0 1 =
      { win_rate := some ((roundAway ((1/2 : ℚ) * 100) : ℤ) : ℚ)
        game_count := 10
        pair_count := 100
        suspicious := decide ((100 : ℤ) < 50) || decide ((10 : ℤ) < 250)
        evaluation := get_evaluation (1/2) (1 - 1/2) ⊤ } ∧
    ((matchups_versus_entry vsStore 0 1).suspicious = true ↔
      ((100 : ℤ) < 50 ∨ (10 : ℤ) < 250)) ∧
    (50 ≤ (100 : ℤ) → 250 ≤ (10 : ℤ) →
      (matchups_versus_entry vsStore 0 1).suspicious = false) :=
  c1_versus_suspicious vsStore 0 1 (1/2) 10 100 (by decide) rfl

/-- C3: the two structurally symmetric halves of the accuracy query do
NOT apply identical deviation thresholds: a game whose two snapshot
deviations are both 50.0 passes the side-A filter (thresholds 75.0) but
fails the side-B filter (thresholds 0.5), so its contribution to the
accuracy buckets depends on which side the player was recorded on — the
code contradicts the spec's prescription that both halves be treated
identically. -/
theorem c3_threshold_asymmetry :
    accuracy_filter_side_a 50 50 = true ∧
    accuracy_filter_side_b 50 50 = false ∧
    ¬(∀ da db : ℚ, accuracy_filter_side_a da db = accuracy_filter_side_b da db) := by
  have ha : accuracy_filter_side_a 50 50 = true := by
    simp only [accuracy_filter_side_a, Bool.and_eq_true, decide_eq_true_iff]
    norm_num
  have hb : accuracy_filter_side_b 50 50 = false := by
    simp only [accuracy_filter_side_b, Bool.and_eq_false_iff, decide_eq_false_iff_not, not_lt]
    norm_num
  exact ⟨ha, hb, fun h => by rw [h 50 50, hb] at ha; exact Bool.false_ne_true ha⟩

/-- C4: every aggregation whose denominator is a game count yields a
well-defined undefined-data marker (`none`, the embedding of the
non-finite `f64` result) instead of a divide-by-zero failure: the
per-bucket accuracy ratio with zero games, the per-player-character win
rate with zero games, and — the claim's particular case — a matchup with
no stored row, whose entry is the explicit marker record with game count
0, suspicious true and evaluation "none". -/
theorem c4_zero_denominator_markers :
    (∀ w l : ℚ, w + l = 0 → fdiv w (w + l) = none) ∧
    (∀ store : ℕ → ℕ → Option (ℚ × ℚ × ℚ × ℚ), ∀ c o : ℕ, store c o = none →
      matchups_global_entry store c o =
        { win_rate_real := none
          win_rate_adjusted := none
          game_count := 0
          suspicious := true
          evaluation := "none" }) ∧
    (∀ wins losses : ℤ, wins + losses = 0 → player_win_rate wins losses = none) := by
  refine ⟨fun w l h => ?_, fun store c o h => ?_, fun wins losses h => ?_⟩
  · simp [fdiv, h]
  · simp [matchups_global_entry, h]
  · have hq : (wins : ℚ) + (losses : ℚ) = 0 := by
      have h2 := congrArg (fun z : ℤ => (z : ℚ)) h
      push_cast at h2
      simpa using h2
    simp [player_win_rate, fdiv, hq]

/-- C4, witness: the three markers at concrete zero-game inputs. -/
theorem c4_witness :
    fdiv 0 (0 + 0) = none ∧
    matchups_global_entry (fun _ _ => none) 0 0 =
      { win_rate_real := none
        win_rate_adjusted := none
        game_count := 0
        suspicious := true
        evaluation := "none" } ∧
    player_win_rate 0 0 = none :=
  ⟨c4_zero_denominator_markers.1 0 0 (by norm_num),
   c4_zero_denominator_markers.2.1 (fun _ _ => none) 0 0 rfl,
   c4_zero_denominator_markers.2.2 0 0 (by decide)⟩

/-- C5: the primary-character selection returns `none` exactly for a
player with no rating rows; whenever it returns a character, that
character belongs to a row maximizing the conservative estimate
`value - 3 * deviation` over all of the player's rows; and on
`demoRatingRows` it picks character 0, which is NOT the character with
the highest raw value (that is character 1). -/
theorem c5_highest_rated (rows : List PlayerRatingRow) :
    (get_player_highest_rated_character rows = none ↔ rows = []) ∧
    (∀ c, get_player_highest_rated_character rows = some c →
      ∃ r ∈ rows, r.char_id = c ∧
        ∀ s ∈ rows, s.value - 3.0 * s.deviation ≤ r.value - 3.0 * r.deviation) ∧
    (get_player_highest_rated_character demoRatingRows = some 0 ∧
      (demoRatingRows.argmax (fun r => r.value)).map (fun r => r.char_id) = some 1) := by
  refine ⟨?_, fun c h => ?_, ?_, ?_⟩
  · simp [get_player_highest_rated_character]
  · rw [get_player_highest_rated_character] at h
    obtain ⟨r, hr, hc⟩ := Option.map_eq_some'.mp h
    exact ⟨r, List.argmax_mem (Option.mem_def.mpr hr), hc,
      fun s hs => List.le_of_mem_argmax hs (Option.mem_def.mpr hr)⟩
  · norm_num [get_player_highest_rated_character, demoRatingRows, List.argmax, List.argAux]
  · norm_num [demoRatingRows, List.argmax, List.argAux]

/-- C5, witness: the maximality statement applied to `demoRatingRows`,
whose selected character is 0. -/
theorem c5_witness :
    ∃ r ∈ demoRatingRows, r.char_id = 0 ∧
      ∀ s ∈ demoRatingRows, s.value - 3.0 * s.deviation ≤ r.value - 3.0 * r.deviation :=
  (c5_highest_rated demoRatingRows).2.1 0 (c5_highest_rated demoRatingRows).2.2.1

/-- Helper: on an unrecognized winner code the accuracy step panics. -/
theorem accuracy_step_of_bad_winner (f : Rating → Rating → ℚ) (acc : List (ℚ × ℚ))
    (r : AccuracyRow)
    (h : ¬(r.winner = 1 ∨ r.winner = 2 ∨ r.winner = 3 ∨ r.winner = 4)) :
    accuracy_step f acc r = .error "Bad winner" := by
  push_neg at h
  simp [accuracy_step, h.1, h.2.1, h.2.2.1, h.2.2.2]

/-- Helper: on a recognized winner code the accuracy step succeeds. -/
theorem accuracy_step_of_good_winner (f : Rating → Rating → ℚ) (acc : List (ℚ × ℚ))
    (r : AccuracyRow)
    (h : r.winner = 1 ∨ r.winner = 2 ∨ r.winner = 3 ∨ r.winner = 4) :
    ∃ acc2, accuracy_step f acc r = .ok acc2 := by
  rcases h with h | h | h | h <;> simp [accuracy_step, h]

/-- Helper: a row list containing an unrecognized winner code makes the
whole accuracy fold fail, whatever the starting buckets. -/
theorem foldlM_accuracy_error (f : Rating → Rating → ℚ) (rows : List AccuracyRow) :
    ∀ acc : List (ℚ × ℚ),
      (∃ r ∈ rows, ¬(r.winner = 1 ∨ r.winner = 2 ∨ r.winner = 3 ∨ r.winner = 4)) →
      rows.foldlM (accuracy_step f) acc = .error "Bad winner" := by
  induction rows with
  | nil => intro acc h; simp at h
  | cons r rest ih =>
    intro acc h
    rw [List.foldlM_cons]
    by_cases hr : r.winner = 1 ∨ r.winner = 2 ∨ r.winner = 3 ∨ r.winner = 4
    · obtain ⟨acc2, hacc⟩ := accuracy_step_of_good_winner f acc r hr
      rw [hacc]
      show rest.foldlM (accuracy_step f) acc2 = Except.error "Bad winner"
      apply ih
      rcases h with ⟨s, hs, hbad⟩
      rcases List.mem_cons.mp hs with rfl | hmem
      · exact absurd hr hbad
      · exact ⟨s, hmem, hbad⟩
    · rw [accuracy_step_of_bad_winner f acc r hr]
      rfl

/-- Helper: on an unrecognized winner code the grouping history step
panics. -/
theorem history_step_of_bad_winner (rc : Rating → Rating → ℚ → ℚ)
    (acc : List RawPlayerSet) (r : HistoryRow)
    (h : ¬(r.winner = 1 ∨ r.winner = 2 ∨ r.winner = 3 ∨ r.winner = 4)) :
    history_step rc true acc r = .error "Bad winner" := by
  push_neg at h
  simp [history_step, h.1, h.2.1, h.2.2.1, h.2.2.2]

/-- Helper: on a recognized winner code the grouping history step
succeeds. -/
theorem history_step_of_good_winner (rc : Rating → Rating → ℚ → ℚ)
    (acc : List RawPlayerSet) (r : HistoryRow)
    (h : r.winner = 1 ∨ r.winner = 2 ∨ r.winner = 3 ∨ r.winner = 4) :
    ∃ acc2, history_step rc true acc r = .ok acc2 := by
  rcases h with h | h | h | h <;> simp [history_step, h]

/-- Helper: a row list containing an unrecognized winner code makes the
whole grouping history fold fail, whatever the starting sets. -/
theorem foldlM_history_error (rc : Rating → Rating → ℚ → ℚ) (rows : List HistoryRow) :
    ∀ acc : List RawPlayerSet,
      (∃ r ∈ rows, ¬(r.winner = 1 ∨ r.winner = 2 ∨ r.winner = 3 ∨ r.winner = 4)) →
      rows.foldlM (history_step rc true) acc = .error "Bad winner" := by
  induction rows with
  | nil => intro acc h; simp at h
  | cons r rest ih =>
    intro acc h
    rw [List.foldlM_cons]
    by_cases hr : r.winner = 1 ∨ r.winner = 2 ∨ r.winner = 3 ∨ r.winner = 4
    · obtain ⟨acc2, hacc⟩ := history_step_of_good_winner rc acc r hr
      rw [hacc]
      show rest.foldlM (history_step rc true) acc2 = Except.error "Bad winner"
      apply ih
      rcases h with ⟨s, hs, hbad⟩
      rcases List.mem_cons.mp hs with rfl | hmem
      · exact absurd hr hbad
      · exact ⟨s, hmem, hbad⟩
    · rw [history_step_of_bad_winner rc acc r hr]
      rfl

/-- C2, counterexample: a match list whose first row carries the
unrecognized winner code 0 makes the whole accuracy run abort with the
`Bad winner` panic — the valid match after it is never processed and no
result (with or without a surfaced per-match error) is produced, refuting
the claim that processing neither drops the match nor aborts the rest of
the run. -/
theorem c2_counterexample :
    processAccuracy constHalf [badAccuracyRow, goodAccuracyRow] = .error "Bad winner" ∧
    ∀ result, processAccuracy constHalf [badAccuracyRow, goodAccuracyRow] ≠ .ok result := by
  refine ⟨rfl, fun result h => ?_⟩
  rw [show processAccuracy constHalf [badAccuracyRow, goodAccuracyRow] =
    .error "Bad winner" from rfl] at h
  exact Except.noConfusion h

/-- C2, amended: a match row with an unrecognized outcome code causes the
processing of a player's match list (the accuracy loop as well as the
grouped-history loop) to abort as a whole with the `Bad winner` panic;
the match is not silently dropped, but no remaining match is processed
either (fail-closed rather than skip-and-report). -/
theorem c2_bad_winner_aborts :
    (∀ (f : Rating → Rating → ℚ) (rows : List AccuracyRow),
      (∃ r ∈ rows, ¬(r.winner = 1 ∨ r.winner = 2 ∨ r.winner = 3 ∨ r.winner = 4)) →
      processAccuracy f rows = .error "Bad winner") ∧
    (∀ (rc : Rating → Rating → ℚ → ℚ) (rows : List HistoryRow),
      (∃ r ∈ rows, ¬(r.winner = 1 ∨ r.winner = 2 ∨ r.winner = 3 ∨ r.winner = 4)) →
      history_loop rc true rows = .error "Bad winner") :=
  ⟨fun f rows h => foldlM_accuracy_error f rows _ h,
   fun rc rows h => foldlM_history_error rc rows _ h⟩

/-- C2, witness: the amended theorem applied to concrete lists holding a
bad-winner row (after a valid one in the accuracy case). -/
theorem c2_witness :
    processAccuracy constHalf [goodAccuracyRow, badAccuracyRow] = .error "Bad winner" ∧
    history_loop zeroChange true [goodHistoryRow, badHistoryRow] = .error "Bad winner" :=
  ⟨c2_bad_winner_aborts.1 constHalf [goodAccuracyRow, badAccuracyRow]
    ⟨badAccuracyRow, List.mem_cons_of_mem _ (List.mem_cons_self _ _), by decide⟩,
   c2_bad_winner_aborts.2 zeroChange [goodHistoryRow, badHistoryRow]
    ⟨badHistoryRow, List.mem_cons_of_mem _ (List.mem_cons_self _ _), by decide⟩⟩

/-- C6, counterexample: the conversions in the code use the constant
173.718, not 173.7178 as the claim states: converting internal value 1 to
the display scale yields 1673.718, not `1 * 173.7178 + 1500`, and the
claim's display value `1 * 173.7178 + 1500` does not convert back to
internal value 1 under the code's conversion. -/
theorem c6_counterexample :
    display_of_internal 1 ≠ 1 * 173.7178 + 1500 ∧
    internal_of_display (1 * 173.7178 + 1500) ≠ 1 := by
  constructor <;> norm_num [display_of_internal, internal_of_display]

/-- C6, amended: with the constant 173.718 actually used (at both
conversion sites of `rating_experience`), the display and internal
conversions are mutually inverse — exactly, with no rounding slack
needed — and the claim's triple composition collapses accordingly. -/
theorem c6_round_trip (v d : ℚ) :
    internal_of_display (display_of_internal v) = v ∧
    display_of_internal (internal_of_display d) = d ∧
    display_of_internal (internal_of_display (display_of_internal v)) = display_of_internal v := by
  refine ⟨?_, ?_, ?_⟩ <;>
    · simp only [internal_of_display, display_of_internal]
      field_simp

/-- Helper: with grouping disabled the history fold returns its
accumulator unchanged. -/
theorem foldlM_history_skip (rc : Rating → Rating → ℚ → ℚ) (rows : List HistoryRow) :
    ∀ acc : List RawPlayerSet, rows.foldlM (history_step rc false) acc = .ok acc := by
  induction rows with
  | nil => intro acc; rfl
  | cons r rest ih =>
    intro acc
    rw [List.foldlM_cons]
    exact ih acc

/-- C8: with `group_games = false` the player-character history operation
returns an empty history list no matter how many rows the query produced,
because rows are accumulated only under the `group_games` flag; with
`group_games = true` a (valid) row does get accumulated, as the concrete
one-row run shows. -/
theorem c8_history_empty_without_grouping
    (rc : Rating → Rating → ℚ → ℚ) (ef : Rating → Rating → ℚ) (rows : List HistoryRow) :
    get_player_char_history rc ef rows false = .ok (some ⟨[]⟩) ∧
    (history_loop zeroChange true [goodHistoryRow]).map List.length = .ok 1 := by
  constructor
  · have h : history_loop rc false rows = .ok [] := foldlM_history_skip rc rows []
    unfold get_player_char_history
    rw [h]
    rfl
  · rfl

/-- C9: each of the three endpoints that parse a player id from hex
panics on the parse's unwrap for every string that does not parse as a
base-16 64-bit integer, and conversely any of them returns an `ok`
response only when the string parses. -/
theorem c9_invalid_hex (s : String) :
    (from_str_radix16 s = none →
      (∀ (charNames : List (String × String)) (store : ℤ → ℕ → Option (ℚ × ℚ)) (c : String),
        player_rating_endpoint charNames store s c = .error invalidIdMsg) ∧
      (∀ (charNames : List (String × String)) (f : Rating → Rating → ℚ)
          (db : ℤ → ℕ → List AccuracyRow) (c : String),
        player_rating_accuracy_endpoint charNames f db s c = .error invalidIdMsg) ∧
      (∀ db : ℤ → List GameRatingRow,
        rating_experience_player_endpoint db s = .error invalidIdMsg)) ∧
    (∀ charNames store c r, player_rating_endpoint charNames store s c = .ok r →
      (from_str_radix16 s).isSome) ∧
    (∀ charNames f db c r, player_rating_accuracy_endpoint charNames f db s c = .ok r →
      (from_str_radix16 s).isSome) ∧
    (∀ db r, rating_experience_player_endpoint db s = .ok r →
      (from_str_radix16 s).isSome) := by
  constructor
  · intro h
    refine ⟨fun charNames store c => ?_, fun charNames f db c => ?_, fun db => ?_⟩
    · simp [player_rating_endpoint, h]
    · simp [player_rating_accuracy_endpoint, h]
    · simp [rating_experience_player_endpoint, h]
  · cases hp : from_str_radix16 s with
    | none =>
      refine ⟨fun charNames store c r hok => ?_, fun charNames f db c r hok => ?_,
        fun db r hok => ?_⟩
      · simp [player_rating_endpoint, hp] at hok
      · simp [player_rating_accuracy_endpoint, hp] at hok
      · simp [rating_experience_player_endpoint, hp] at hok
    | some v =>
      exact ⟨fun _ _ _ _ _ => by simp [hp], fun _ _ _ _ _ _ => by simp [hp],
        fun _ _ _ => by simp [hp]⟩

/-- C9, witness: the string "zz" is not hexadecimal and all three
endpoints panic on it. -/
theorem c9_witness :
    from_str_radix16 "zz" = none ∧
    player_rating_endpoint [] (fun _ _ => none) "zz" "SO" = .error invalidIdMsg ∧
    player_rating_accuracy_endpoint [] constHalf (fun _ _ => []) "zz" "SO" = .error invalidIdMsg ∧
    rating_experience_player_endpoint (fun _ => []) "zz" = .error invalidIdMsg :=
  have h : from_str_radix16 "zz" = none := by decide
  ⟨h, ((c9_invalid_hex "zz").1 h).1 [] (fun _ _ => none) "SO",
    ((c9_invalid_hex "zz").1 h).2.1 [] constHalf (fun _ _ => []) "SO",
    ((c9_invalid_hex "zz").1 h).2.2 (fun _ => [])⟩

/-- Helper: a logistic value `1 / (1 + exp x)` lies in the closed unit
interval. -/
theorem logistic_mem_unit_interval (x : ℝ) :
    0 ≤ 1 / (1 + Real.exp x) ∧ 1 / (1 + Real.exp x) ≤ 1 := by
  have hx := Real.exp_pos x
  constructor
  · positivity
  · rw [div_le_one (by linarith)]
    linarith

/-- C7: the expected-outcome function returns a probability in the unit
interval, hence the outcomes bucket `round(expected * 100)` lies in
`0..=100` (so the lookup into the 101-cell vector cannot fail) and the
clamped accuracy bucket `round(clamp(expected, 0, 1) * 10)` lies in
`0..=10`. -/
theorem c7_expected_bounds (a b : RatingR) :
    0 ≤ expectedR a b ∧ expectedR a b ≤ 1 ∧
    0 ≤ outcomes_bucket a b ∧ outcomes_bucket a b ≤ 100 ∧
    (outcomes_vec[(outcomes_bucket a b).toNat]?).isSome ∧
    0 ≤ accuracy_bucket a b ∧ accuracy_bucket a b ≤ 10 := by
  have h0 : 0 ≤ expectedR a b := by
    unfold expectedR
    exact (logistic_mem_unit_interval _).1
  have h1 : expectedR a b ≤ 1 := by
    unfold expectedR
    exact (logistic_mem_unit_interval _).2
  have hx0 : 0 ≤ expectedR a b * 100 := by positivity
  have hx1 : expectedR a b * 100 ≤ 100 := by nlinarith
  have hob : outcomes_bucket a b = ⌊expectedR a b * 100 + 1 / 2⌋ := by
    rw [outcomes_bucket, roundAway, if_pos hx0]
  have hlow : 0 ≤ outcomes_bucket a b := by
    rw [hob]
    exact Int.le_floor.mpr (by push_cast; linarith)
  have hhigh : outcomes_bucket a b ≤ 100 := by
    rw [hob]
    have hm : (⌊expectedR a b * 100 + 1 / 2⌋ : ℤ) ≤ ⌊(100 : ℝ) + 1 / 2⌋ :=
      Int.floor_mono (by linarith)
    have h100 : (⌊(100 : ℝ) + 1 / 2⌋ : ℤ) = 100 := by
      rw [Int.floor_eq_iff]
      norm_num
    omega
  have hcl0 : (0 : ℝ) ≤ max (min (expectedR a b) 1) 0 := le_max_right _ _
  have hcl1 : max (min (expectedR a b) 1) 0 ≤ 1 :=
    max_le (min_le_right _ _) (by norm_num)
  have hac0 : (0 : ℝ) ≤ max (min (expectedR a b) 1) 0 * 10 := by positivity
  have hac1 : max (min (expectedR a b) 1) 0 * 10 ≤ 10 := by nlinarith
  have hab : accuracy_bucket a b = ⌊max (min (expectedR a b) 1) 0 * 10 + 1 / 2⌋ := by
    rw [accuracy_bucket, roundAway, if_pos hac0]
  have halow : 0 ≤ accuracy_bucket a b := by
    rw [hab]
    exact Int.le_floor.mpr (by push_cast; linarith)
  have hahigh : accuracy_bucket a b ≤ 10 := by
    rw [hab]
    have hm : (⌊max (min (expectedR a b) 1) 0 * 10 + 1 / 2⌋ : ℤ) ≤ ⌊(10 : ℝ) + 1 / 2⌋ :=
      Int.floor_mono (by linarith)
    have h10 : (⌊(10 : ℝ) + 1 / 2⌋ : ℤ) = 10 := by
      rw [Int.floor_eq_iff]
      norm_num
    omega
  have hsome : (outcomes_vec[(outcomes_bucket a b).toNat]?).isSome := by
    have hlen : (outcomes_bucket a b).toNat < outcomes_vec.length := by
      simp only [outcomes_vec, List.length_replicate]
      omega
    rw [List.getElem?_eq_getElem hlen]
    rfl
  exact ⟨h0, h1, hlow, hhigh, hsome, halow, hahigh⟩
